import Mathlib

/-!
Verification of the build-environment resolution engine
(client/scripts/configure.py and client/scripts/install_deps.py).

The scripts are shallowly embedded: the ambient process environment is an
association list, the outside world (which executables are on PATH, which
files exist, what the locator and vendor tools print) is a `World` record,
and interactive standard input is a list of `Inp` events where `Inp.cancel`
stands for KeyboardInterrupt / EOFError.  Every function below mirrors one
Python function of the sources, statement by statement.
-/

namespace Spec2Proof

/-! ## Environment mappings (os.environ and dict semantics) -/

/-! ### String primitives

Executable models of the Python string methods the scripts use, written
over the character list of the string so that concrete runs reduce. -/

/-- Python str.lower() (the scripts only lower ASCII names). -/
def strLower (s : String) : String := ⟨s.data.map Char.toLower⟩

/-- An ASCII whitespace character, as stripped by Python str.strip(). -/
def isSpaceChar (c : Char) : Bool :=
  c == ' ' || c == '\t' || c == '\n' || c == '\r'

/-- Python str.strip(). -/
def strTrim (s : String) : String :=
  ⟨((s.data.dropWhile isSpaceChar).reverse.dropWhile isSpaceChar).reverse⟩

/-- Decimal digit value of a character. -/
def digitVal (c : Char) : Option Nat :=
  if 48 ≤ c.toNat ∧ c.toNat ≤ 57 then some (c.toNat - 48) else none

/-- Parse a nonempty run of decimal digits. -/
def parseDigits : List Char → Nat → Option Nat
  | [], acc => some acc
  | c :: rest, acc =>
    match digitVal c with
    | some d => parseDigits rest (acc * 10 + d)
    | none => none

/-- Python int(str) on an already-stripped string, none on ValueError. -/
def strToInt? (s : String) : Option Int :=
  match s.data with
  | [] => none
  | '-' :: ds =>
    if ds.isEmpty then none
    else (parseDigits ds 0).map (fun n => -(n : Int))
  | '+' :: ds =>
    if ds.isEmpty then none
    else (parseDigits ds 0).map (fun n => (n : Int))
  | ds => (parseDigits ds 0).map (fun n => (n : Int))

/-- A process environment: ordered key/value mapping with dict semantics. -/
abbrev Env := List (String × String)

/-- Membership test, mirroring `key in environ`. -/
def envMem : Env → String → Bool
  | [], _ => false
  | (k0, _) :: rest, k => k0 == k || envMem rest k

/-- Lookup, mirroring `environ.get(key)`. -/
def envGet : Env → String → Option String
  | [], _ => none
  | (k0, v0) :: rest, k => if k0 == k then some v0 else envGet rest k

/-- Assignment `environ[key] = value`: replaces the first binding in place,
otherwise appends, as a Python dict does. -/
def envSet : Env → String → String → Env
  | [], k, v => [(k, v)]
  | (k0, v0) :: rest, k, v =>
    if k0 == k then (k, v) :: rest else (k0, v0) :: envSet rest k v

/-- The parsing loop of `setup_msvc_environment`: for every dump line that
contains an equals sign, partition it at the first equals sign and store
the pair into the accumulating environment. -/
def parse_env_dump (base : Env) (lines : List String) : Env :=
  lines.foldl
    (fun e line =>
      if line.data.contains '=' then
        let key := line.data.takeWhile (fun c => c ≠ '=')
        let value := line.data.drop (key.length + 1)
        envSet e ⟨key⟩ ⟨value⟩
      else e)
    base

/-! ## The outside world -/

/-- Everything the scripts observe about the machine: platform, PATH
probes, the filesystem, the initial process environment, and the outputs
of the external tools they spawn. -/
structure World where
  /-- platform.system() -/
  system : String
  /-- the project root directory (script_dir.parent) -/
  root : String
  /-- shutil.which("g++") succeeds -/
  gccAvail : Bool
  /-- shutil.which("clang++") succeeds -/
  clangPPAvail : Bool
  /-- shutil.which("clang-cl") succeeds before any PATH edit -/
  clangClOnPath : Bool
  /-- shutil.which("cl") succeeds -/
  clAvail : Bool
  /-- shutil.which("ninja") succeeds -/
  ninjaAvail : Bool
  /-- shutil.which("make") succeeds -/
  makeAvail : Bool
  /-- shutil.which("conan") succeeds -/
  conanAvail : Bool
  /-- the set of filesystem paths that exist -/
  existingPaths : List String
  /-- shutil.which("clang-cl") succeeds after a directory was prepended to PATH -/
  whichAfterPrepend : Bool
  /-- os.environ at process start -/
  environ : Env
  /-- stdout of the vswhere query, none if the call raised CalledProcessError -/
  vswhereOut : Option String
  /-- the chained vcvarsall-and-set invocation exits successfully -/
  vcvarsOk : Bool
  /-- splitlines() of the captured environment dump -/
  vcvarsDump : List String
  /-- stdout of `gcc --version`, none if the call failed -/
  gccVersionOut : Option String
  /-- `conan install` exits with code 0 -/
  conanInstallOk : Bool
  /-- the `cmake` configure invocation exits with code 0 -/
  cmakeOk : Bool
deriving DecidableEq, Repr

/-- File/directory existence probe (`Path.exists()`). -/
def pathExists (w : World) (p : String) : Bool := w.existingPaths.contains p

/-- `os.environ.get("ProgramFiles(x86)", "C:\\Program Files (x86)")`. -/
def pf86 (w : World) : String :=
  (envGet w.environ "ProgramFiles(x86)").getD "C:\\Program Files (x86)"

/-- `os.environ.get("ProgramFiles", "C:\\Program Files")`. -/
def pfDefault (w : World) : String :=
  (envGet w.environ "ProgramFiles").getD "C:\\Program Files"

/-- vswhere.exe under the 32-bit Program Files root. -/
def vswhere_primary (w : World) : String :=
  pf86 w ++ "/Microsoft Visual Studio/Installer/vswhere.exe"

/-- vswhere.exe under the 64-bit Program Files root. -/
def vswhere_fallback (w : World) : String :=
  pfDefault w ++ "/Microsoft Visual Studio/Installer/vswhere.exe"

/-! ## CompilerDetector -/

/-- `CompilerDetector.detect_msvc`: on Windows, run vswhere with the
VC.Tools component requirement and report an installation when the call
succeeds with nonempty output. -/
def detect_msvc (w : World) : Bool :=
  if w.system == "Windows" then
    if pathExists w (vswhere_primary w) then
      match w.vswhereOut with
      | some out => strTrim out != ""
      | none => false
    else false
  else false

/-- `BuildSystemSelector.detect_msbuild`: identical vswhere probe. -/
def detect_msbuild (w : World) : Bool :=
  if w.system == "Windows" then
    if pathExists w (vswhere_primary w) then
      match w.vswhereOut with
      | some out => strTrim out != ""
      | none => false
    else false
  else false

/-- The fixed list of Visual Studio installation roots scanned by
`_setup_clang_cl_path` and `setup_msvc_environment`. -/
def vs_common_roots : List String :=
  ["C:/Program Files/Microsoft Visual Studio/2022/Community",
   "C:/Program Files/Microsoft Visual Studio/2022/Professional",
   "C:/Program Files/Microsoft Visual Studio/2022/Enterprise",
   "C:/Program Files (x86)/Microsoft Visual Studio/2019/Community",
   "C:/Program Files (x86)/Microsoft Visual Studio/2019/Professional",
   "C:/Program Files (x86)/Microsoft Visual Studio/2019/Enterprise"]

/-- The fixed standalone LLVM roots scanned by `_setup_clang_cl_path`. -/
def llvm_roots : List String :=
  ["C:/Program Files/LLVM/bin", "C:/Program Files (x86)/LLVM/bin"]

/-- The candidate clang-cl directories in scan order: for each existing
Visual Studio root its two Llvm bin directories, then the LLVM roots. -/
def clang_search_dirs (w : World) : List String :=
  (vs_common_roots.filter (pathExists w)).flatMap
    (fun vs => [vs ++ "/VC/Tools/Llvm/x64/bin", vs ++ "/VC/Tools/Llvm/bin"])
  ++ llvm_roots

/-- The scan loop of `_setup_clang_cl_path`: for each candidate directory
holding clang-cl.exe, prepend it to PATH in the ambient environment and
stop when the PATH probe then finds clang-cl. -/
def try_clang_dirs (w : World) : List String → Env → Bool × Env
  | [], amb => (false, amb)
  | d :: rest, amb =>
    if pathExists w (d ++ "/clang-cl.exe") then
      let amb1 := envSet amb "PATH" (d ++ ";" ++ ((envGet amb "PATH").getD ""))
      if w.whichAfterPrepend then (true, amb1) else try_clang_dirs w rest amb1
    else try_clang_dirs w rest amb

/-- `CompilerDetector._setup_clang_cl_path`, with the ambient environment
threaded explicitly: non-Windows and already-on-PATH return it unchanged,
otherwise the scan may prepend directories to the ambient PATH. -/
def setup_clang_cl_path (w : World) (amb : Env) : Bool × Env :=
  if w.system != "Windows" then (true, amb)
  else if w.clangClOnPath then (true, amb)
  else try_clang_dirs w (clang_search_dirs w) amb

/-- `CompilerDetector.detect_gcc`. -/
def detect_gcc (w : World) : Bool := w.gccAvail

/-- `CompilerDetector.detect_clang`: on Windows a PATH probe for clang-cl
or the installation-root scan, elsewhere a probe for clang++. -/
def detect_clang (w : World) : Bool :=
  if w.system == "Windows" then
    w.clangClOnPath || (setup_clang_cl_path w w.environ).1
  else w.clangPPAvail

/-- The vswhere executable used by `setup_msvc_environment`: the primary
location, or the fallback when only the fallback exists. -/
def msvc_vswhere_path (w : World) : String :=
  if !pathExists w (vswhere_primary w) && pathExists w (vswhere_fallback w) then
    vswhere_fallback w
  else vswhere_primary w

/-- The Visual Studio installation path resolved by
`setup_msvc_environment`: the trimmed vswhere output when available,
otherwise the first existing common root, otherwise empty. -/
def msvc_vs_path (w : World) : String :=
  let fromVswhere :=
    if pathExists w (msvc_vswhere_path w) then
      match w.vswhereOut with
      | some out => strTrim out
      | none => ""
    else ""
  if fromVswhere != "" then fromVswhere
  else
    match vs_common_roots.find? (pathExists w) with
    | some p => p
    | none => ""

/-- `CompilerDetector.setup_msvc_environment`: start from a copy of the
ambient environment; outside Windows, or when cl is on PATH and INCLUDE is
set, return that copy unchanged; otherwise locate vcvarsall.bat, run it
chained with `set`, and fold the captured dump into the copy.  Every
failure degrades to the unchanged copy. -/
def setup_msvc_environment (w : World) : Env :=
  let env := w.environ
  if w.system != "Windows" then env
  else if w.clAvail && envMem w.environ "INCLUDE" then env
  else
    let vs := msvc_vs_path w
    if vs == "" then env
    else
      let vcvars := vs ++ "/VC/Auxiliary/Build/vcvarsall.bat"
      if !pathExists w vcvars then env
      else if !w.vcvarsOk then env
      else parse_env_dump env w.vcvarsDump

/-- The success conditions of the extraction branch of
`setup_msvc_environment`: an installation path was resolved, vcvarsall.bat
exists there, and the chained invocation succeeded. -/
def msvc_extraction_ok (w : World) : Bool :=
  msvc_vs_path w != ""
  && pathExists w (msvc_vs_path w ++ "/VC/Auxiliary/Build/vcvarsall.bat")
  && w.vcvarsOk

/-- `CompilerDetector.setup_compiler`: the CMake compiler-override pairs
for each compiler id, in dict insertion order. -/
def setup_compiler_args (compiler : Option String) : List (String × String) :=
  match compiler with
  | some c =>
    if c == "gcc" || c == "g++" then
      [("CMAKE_C_COMPILER", "gcc"), ("CMAKE_CXX_COMPILER", "g++")]
    else if c == "clang" || c == "clang++" then
      [("CMAKE_C_COMPILER", "clang"), ("CMAKE_CXX_COMPILER", "clang++")]
    else if c == "clang-cl" then
      [("CMAKE_C_COMPILER", "clang-cl"), ("CMAKE_CXX_COMPILER", "clang-cl")]
    else []
  | none => []

/-! ## BuildConfig -/

/-- `configure.py` BuildConfig after resolution. -/
structure BuildCfg where
  projectRoot : String
  buildType : String
  compiler : Option String
  buildSystem : Option String
  platform : String
  buildTests : Bool
  useConan : Bool
  clean : Bool
  interactive : Bool
  cmakeArgs : List String
deriving DecidableEq, Repr

/-- `BuildConfig.get_platform_name`. -/
def get_platform_name (system : String) : String :=
  if system == "Windows" then "windows"
  else if system == "Linux" then "linux"
  else if system == "Darwin" then "macos"
  else "unknown"

/-- `BuildConfig.get_build_dir`: project_root / build / lowercased build
type / platform. -/
def get_build_dir (cfg : BuildCfg) : String :=
  cfg.projectRoot ++ "/build/" ++ strLower cfg.buildType ++ "/" ++ cfg.platform

/-! ## ConanManager and CMakeBuilder command assembly -/

/-- The Conan toolchain file inside the build directory. -/
def toolchain_path (cfg : BuildCfg) : String :=
  get_build_dir cfg ++ "/conan_toolchain.cmake"

/-- `ConanManager.find_conan_toolchain`. -/
def find_conan_toolchain (w : World) (cfg : BuildCfg) : Option String :=
  if pathExists w (toolchain_path cfg) then some (toolchain_path cfg) else none

/-- Substring containment, mirroring the Python `in` test on strings. -/
def containsSub (s pat : String) : Bool :=
  decide (pat.toList <:+: s.toList)

/-- The custom gcc15 Conan profile location. -/
def gcc15_profile_path (cfg : BuildCfg) : String :=
  cfg.projectRoot ++ "/conan_profiles/gcc15"

/-- The profile selection of `ConanManager.setup_conan`: the custom
profile when it exists, the compiler is gcc-like or unset, and the
reported gcc version is a 15 or 16 release; otherwise "default". -/
def conan_profile (w : World) (cfg : BuildCfg) : String :=
  if pathExists w (gcc15_profile_path cfg)
      && (cfg.compiler == some "gcc" || cfg.compiler == some "g++"
          || cfg.compiler == none) then
    match w.gccVersionOut with
    | some out =>
      if containsSub out "gcc (GCC) 15" || containsSub out "gcc (GCC) 16" then
        gcc15_profile_path cfg
      else "default"
    | none => "default"
  else "default"

/-- The build-type remap of `ConanManager.setup_conan`: RelWithDebInfo
requests Release dependencies, everything else is passed through. -/
def conan_build_type (buildType : String) : String :=
  if strLower buildType == "relwithdebinfo" then "Release" else buildType

/-- The `conan install` command assembled by `ConanManager.setup_conan`. -/
def conan_install_cmd (w : World) (cfg : BuildCfg) : List String :=
  ["conan", "install", cfg.projectRoot,
   "--output-folder", get_build_dir cfg,
   "--build=missing", "--build=!qt/*",
   "--profile=" ++ conan_profile w cfg,
   "-s:h=build_type=" ++ conan_build_type cfg.buildType]

/-- `BuildSystemSelector.setup_build_system`: the generator flag, absent
for a missing or falsy generator string. -/
def setup_build_system : Option String → List String
  | some g => if g == "" then [] else ["-G", g]
  | none => []

/-- The Conan-related defines appended by `CMakeBuilder.configure`:
toolchain file plus CLIENT_USE_CONAN=ON when the toolchain is found,
nothing (and a warning) when it is missing, CLIENT_USE_CONAN=OFF when
Conan is not used. -/
def conan_flags (w : World) (cfg : BuildCfg) : List String :=
  if cfg.useConan then
    match find_conan_toolchain w cfg with
    | some t => ["-DCMAKE_TOOLCHAIN_FILE=" ++ t, "-DCLIENT_USE_CONAN=ON"]
    | none => []
  else ["-DCLIENT_USE_CONAN=OFF"]

/-- The configure command assembled by `CMakeBuilder.configure`, in the
order the Python code extends `cmd`. -/
def cmake_configure_cmd (w : World) (cfg : BuildCfg) : List String :=
  ["cmake"]
  ++ setup_build_system cfg.buildSystem
  ++ (setup_compiler_args cfg.compiler).map (fun kv => "-D" ++ kv.1 ++ "=" ++ kv.2)
  ++ ["-DCMAKE_BUILD_TYPE=" ++ cfg.buildType]
  ++ ["-DCLIENT_BUILD_TESTS=" ++ (if cfg.buildTests then "ON" else "OFF")]
  ++ conan_flags w cfg
  ++ cfg.cmakeArgs
  ++ ["-S", cfg.projectRoot, "-B", get_build_dir cfg]

/-- The environment `CMakeBuilder.configure` passes to the cmake
subprocess: the MSVC snapshot on Windows with an MSVC-class or unset
compiler, otherwise a copy of the ambient environment. -/
def cmake_env (w : World) (cfg : BuildCfg) : Env :=
  if w.system == "Windows"
      && (cfg.compiler == some "msvc" || cfg.compiler == some "cl"
          || cfg.compiler == none) then
    setup_msvc_environment w
  else w.environ

/-! ## install_deps.py (DependencyInstaller) -/

/-- `DependencyInstaller.get_build_dir`. -/
def deps_get_build_dir (root system buildType : String) : String :=
  root ++ "/build/" ++ strLower buildType ++ "/" ++ get_platform_name system

/-- The build-type mapping of
`DependencyInstaller.install_conan_dependencies` (no remap takes place). -/
def deps_conan_build_type (buildType : String) : String :=
  if strLower buildType == "relwithdebinfo" then "RelWithDebInfo"
  else if strLower buildType == "debug" then "Debug"
  else if strLower buildType == "release" then "Release"
  else buildType

/-- The `conan install` command assembled by
`DependencyInstaller.install_conan_dependencies`. -/
def deps_conan_install_cmd (root system buildType : String) : List String :=
  ["conan", "install", root,
   "--output-folder", deps_get_build_dir root system buildType,
   "--build=missing",
   "-s:h=build_type=" ++ deps_conan_build_type buildType]

/-! ## Interactive input -/

/-- One read from standard input: a line of text, or an interrupt /
end-of-input condition (KeyboardInterrupt or EOFError). -/
inductive Inp where
  | text (s : String)
  | cancel
deriving DecidableEq, Repr

/-- The numbered-menu loop shared by `select_compiler_interactive` and
`select_build_system_interactive`: cancellation yields none, an empty
response yields the first item, a valid 1-based index yields that item,
anything else re-prompts.  An exhausted input stream behaves as
end-of-input. -/
def menu_select (items : List String) : List Inp → Option String × List Inp
  | [] => (none, [])
  | Inp.cancel :: rest => (none, rest)
  | Inp.text s :: rest =>
    let choice := strTrim s
    if choice == "" then (items.head?, rest)
    else
      match strToInt? choice with
      | some n =>
        if 0 ≤ n - 1 ∧ n - 1 < (items.length : Int) then
          ((items.drop (n - 1).toNat).head?, rest)
        else menu_select items rest
      | none => menu_select items rest

/-- `ask_yes_no` of configure.py: cancellation returns False, an empty
response the default, y/yes True, n/no False, anything else re-prompts. -/
def ask_yes_no (default : Bool) : List Inp → Bool × List Inp
  | [] => (false, [])
  | Inp.cancel :: rest => (false, rest)
  | Inp.text s :: rest =>
    let r := strLower (strTrim s)
    if r == "" then (default, rest)
    else if r == "y" || r == "yes" then (true, rest)
    else if r == "n" || r == "no" then (false, rest)
    else ask_yes_no default rest

/-- `CMakeBuilder.select_build_type_interactive`: cancellation returns
"Release"; 1 Debug, 2 RelWithDebInfo, empty or 3 Release, anything else
re-prompts. -/
def select_build_type_interactive : List Inp → String × List Inp
  | [] => ("Release", [])
  | Inp.cancel :: rest => ("Release", rest)
  | Inp.text s :: rest =>
    let choice := strTrim s
    if choice == "" || choice == "3" then ("Release", rest)
    else if choice == "1" then ("Debug", rest)
    else if choice == "2" then ("RelWithDebInfo", rest)
    else select_build_type_interactive rest

/-- The compiler menu of `select_compiler_interactive`, in the fixed
priority order: MSVC first on Windows, then Clang (clang-cl on Windows),
then GCC. -/
def compiler_candidates (w : World) : List (String × String) :=
  (if w.system == "Windows" && detect_msvc w then [("msvc", "MSVC")] else [])
  ++ (if detect_clang w then
        if w.system == "Windows" then [("clang-cl", "Clang-CL (Windows)")]
        else [("clang", "Clang")]
      else [])
  ++ (if detect_gcc w then [("gcc", "GCC")] else [])

/-- `CompilerDetector.select_compiler_interactive`: none when no compilers
were found, otherwise the numbered menu. -/
def select_compiler_interactive (w : World) (inp : List Inp) :
    Option String × List Inp :=
  let compilers := compiler_candidates w
  if compilers.isEmpty then (none, inp)
  else menu_select (compilers.map (fun p => p.1)) inp

/-- The generator menu of `select_build_system_interactive`: Ninja when
available, Unix Makefiles outside Windows, the Visual Studio generator on
Windows only with an MSVC-class compiler. -/
def build_system_candidates (w : World) (compiler : Option String) :
    List (String × String) :=
  (if w.ninjaAvail then [("Ninja", "Ninja (fast)")] else [])
  ++ (if w.system != "Windows" && w.makeAvail then
        [("Unix Makefiles", "Unix Makefiles")]
      else [])
  ++ (if w.system == "Windows" && detect_msbuild w
          && (compiler == some "msvc" || compiler == some "cl") then
        [("Visual Studio 17 2022", "Visual Studio 2022")]
      else [])

/-- `BuildSystemSelector.select_build_system_interactive`: none (fall back
to the CMake default) when nothing was found, silent auto-selection of a
sole candidate, otherwise the numbered menu. -/
def select_build_system_interactive (w : World) (compiler : Option String)
    (inp : List Inp) : Option String × List Inp :=
  let systems := build_system_candidates w compiler
  if systems.isEmpty then (none, inp)
  else if systems.length == 1 then ((systems.map (fun p => p.1)).head?, inp)
  else menu_select (systems.map (fun p => p.1)) inp

/-- `ConanManager.ask_use_conan`: False when non-interactive or when conan
is not installed, otherwise a yes/no prompt defaulting to no. -/
def ask_use_conan (w : World) (interactive : Bool) (inp : List Inp) :
    Bool × List Inp :=
  if !interactive then (false, inp)
  else if !w.conanAvail then (false, inp)
  else ask_yes_no false inp

/-! ## The main resolution pipeline -/

/-- The parsed command-line arguments of configure.py. -/
structure Args where
  type : Option String
  compiler : Option String
  buildSystem : Option String
  platformArg : Option String
  buildTests : Option Bool
  useConan : Option Bool
  clean : Bool
  noInteractive : Bool
  cmakeArgs : List String
deriving DecidableEq, Repr

/-- The compiler auto-detection branch of `main` (non-interactive, no
override): gcc first, then clang (clang-cl on Windows), then MSVC. -/
def auto_detect_compiler (w : World) : Option String :=
  if detect_gcc w then some "gcc"
  else if detect_clang w then
    some (if w.system != "Windows" then "clang" else "clang-cl")
  else if w.system == "Windows" && detect_msvc w then some "msvc"
  else none

/-- The build-system auto-selection branch of `main`. -/
def auto_build_system (w : World) (compiler : String) : String :=
  if w.ninjaAvail then "Ninja"
  else if w.system != "Windows" then "Unix Makefiles"
  else if compiler == "msvc" || compiler == "cl" then "Visual Studio 17 2022"
  else "Ninja"

/-- An observable step of a run: a prompt being put to the user, or an
external command being invoked. -/
inductive Ev where
  | promptBuildType
  | promptCompiler
  | promptBuildSystem
  | promptTests
  | promptConan
  | conanRun (cmd : List String)
  | cmakeRun (cmd : List String)
deriving DecidableEq, Repr

/-- Whether an event is an interactive prompt. -/
def isPromptEv : Ev → Bool
  | Ev.promptBuildType | Ev.promptCompiler | Ev.promptBuildSystem
  | Ev.promptTests | Ev.promptConan => true
  | _ => false

/-- Whether an event is the configure invocation. -/
def isConfigureEv : Ev → Bool
  | Ev.cmakeRun _ => true
  | _ => false

/-- Whether an event is the dependency-manager invocation. -/
def isConanEv : Ev → Bool
  | Ev.conanRun _ => true
  | _ => false

/-- The build-type resolution step of `main`: override, else prompt, else
the Release default. -/
def stage_build_type (a : Args) (interactive : Bool) (inp : List Inp) :
    String × List Inp × List Ev :=
  match a.type with
  | some t => (t, inp, [])
  | none =>
    if interactive then
      let r := select_build_type_interactive inp
      (r.1, r.2, [Ev.promptBuildType])
    else ("Release", inp, [])

/-- The compiler resolution step of `main`: override, else prompt, else
auto-detection; none means resolution failure. -/
def stage_compiler (w : World) (a : Args) (interactive : Bool)
    (inp : List Inp) : Option String × List Inp × List Ev :=
  match a.compiler with
  | some c => (some c, inp, [])
  | none =>
    if interactive then
      let r := select_compiler_interactive w inp
      (r.1, r.2, [Ev.promptCompiler])
    else (auto_detect_compiler w, inp, [])

/-- The build-system resolution step of `main`: override, else prompt,
else auto-selection. -/
def stage_build_system (w : World) (a : Args) (interactive : Bool)
    (compiler : String) (inp : List Inp) :
    Option String × List Inp × List Ev :=
  match a.buildSystem with
  | some b => (some b, inp, [])
  | none =>
    if interactive then
      let r := select_build_system_interactive w (some compiler) inp
      (r.1, r.2, [Ev.promptBuildSystem])
    else (some (auto_build_system w compiler), inp, [])

/-- The tests resolution step of `main`: override, else a yes/no prompt
defaulting to no, else False. -/
def stage_tests (a : Args) (interactive : Bool) (inp : List Inp) :
    Bool × List Inp × List Ev :=
  match a.buildTests with
  | some b => (b, inp, [])
  | none =>
    if interactive then
      let r := ask_yes_no false inp
      (r.1, r.2, [Ev.promptTests])
    else (false, inp, [])

/-- The Conan resolution step of `main`: override, else `ask_use_conan`,
else False. -/
def stage_conan (w : World) (a : Args) (interactive : Bool)
    (inp : List Inp) : Bool × List Inp × List Ev :=
  match a.useConan with
  | some b => (b, inp, [])
  | none =>
    if interactive then
      let r := ask_use_conan w true inp
      (r.1, r.2, [Ev.promptConan])
    else (false, inp, [])

/-- The resolved BuildConfig that `main` hands to the Conan and CMake
steps. -/
def mkCfg (w : World) (a : Args) (buildType compiler : String)
    (bs : Option String) (tests useConan : Bool) : BuildCfg :=
  { projectRoot := w.root
    buildType := buildType
    compiler := some compiler
    buildSystem := bs
    platform :=
      match a.platformArg with
      | some p => p
      | none => get_platform_name w.system
    buildTests := tests
    useConan := useConan
    clean := a.clean
    interactive := !a.noInteractive
    cmakeArgs := a.cmakeArgs }

/-- The tail of `main` after resolution: `ConanManager.setup_conan` when
requested (fatal when conan is missing or the install fails), then
`CMakeBuilder.configure`; returns the exit code and the commands run. -/
def finishRun (w : World) (cfg : BuildCfg) : Nat × List Ev :=
  if cfg.useConan then
    if !w.conanAvail then (1, [])
    else
      let ev := Ev.conanRun (conan_install_cmd w cfg)
      if !w.conanInstallOk then (1, [ev])
      else
        ((if w.cmakeOk then 0 else 1),
         [ev, Ev.cmakeRun (cmake_configure_cmd w cfg)])
  else
    ((if w.cmakeOk then 0 else 1), [Ev.cmakeRun (cmake_configure_cmd w cfg)])

/-- `main` of configure.py: resolve build type, compiler, build system,
tests and Conan in order, abort with exit code 1 when no compiler
resolves, then run the Conan and configure steps.  Returns the exit code
and the ordered log of prompts and invoked commands. -/
def mainRun (w : World) (a : Args) (inp0 : List Inp) : Nat × List Ev :=
  let s1 := stage_build_type a (!a.noInteractive) inp0
  let s2 := stage_compiler w a (!a.noInteractive) s1.2.1
  match s2.1 with
  | none => (1, s1.2.2 ++ s2.2.2)
  | some compiler =>
    let s3 := stage_build_system w a (!a.noInteractive) compiler s2.2.1
    let s4 := stage_tests a (!a.noInteractive) s3.2.1
    let s5 := stage_conan w a (!a.noInteractive) s4.2.1
    let f := finishRun w (mkCfg w a s1.1 compiler s3.1 s4.1 s5.1)
    (f.1, s1.2.2 ++ s2.2.2 ++ s3.2.2 ++ s4.2.2 ++ s5.2.2 ++ f.2)

/-! ## Spec-side definitions (worded from the specification, for
refinement comparison) -/

/-- The fixed compiler priority order the spec prescribes for candidate
enumeration. -/
def spec_priority_order (isWindows : Bool) : List String :=
  if isWindows then ["msvc", "clang-cl", "gcc"] else ["clang", "gcc"]

/-- The order in which the auto-detection branch of `main` actually
probes compilers. -/
def code_auto_order (isWindows : Bool) : List String :=
  if isWindows then ["gcc", "clang-cl", "msvc"] else ["gcc", "clang"]

/-- Availability of each compiler id on the current platform, as the
detection code reports it. -/
def candidate_available (w : World) : String → Bool
  | "msvc" => (w.system == "Windows") && detect_msvc w
  | "clang-cl" => (w.system == "Windows") && detect_clang w
  | "clang" => (w.system != "Windows") && detect_clang w
  | "gcc" => detect_gcc w
  | _ => false

/-- The configure-command elements the C7 claim lists, in the order it
lists them: generator flag, compiler-executable overrides, build-type
define, test-flag define, toolchain-file define when the toolchain file
exists on disk, the free-form trailing arguments, and the fixed source
and build directory flags. -/
def spec_configure_blocks (w : World) (cfg : BuildCfg) : List String :=
  setup_build_system cfg.buildSystem
  ++ (setup_compiler_args cfg.compiler).map (fun kv => "-D" ++ kv.1 ++ "=" ++ kv.2)
  ++ ["-DCMAKE_BUILD_TYPE=" ++ cfg.buildType]
  ++ ["-DCLIENT_BUILD_TESTS=" ++ (if cfg.buildTests then "ON" else "OFF")]
  ++ (if cfg.useConan && pathExists w (toolchain_path cfg) then
        ["-DCMAKE_TOOLCHAIN_FILE=" ++ toolchain_path cfg]
      else [])
  ++ cfg.cmakeArgs
  ++ ["-S", cfg.projectRoot, "-B", get_build_dir cfg]

/-! ## Concrete instances used by counterexamples and witnesses -/

/-- A machine with nothing installed: Linux, empty filesystem and
environment, external commands succeed when reached. -/
def baseWorld : World :=
  { system := "Linux", root := "/proj", gccAvail := false,
    clangPPAvail := false, clangClOnPath := false, clAvail := false,
    ninjaAvail := false, makeAvail := false, conanAvail := false,
    existingPaths := [], whichAfterPrepend := false, environ := [],
    vswhereOut := none, vcvarsOk := true, vcvarsDump := [],
    gccVersionOut := none, conanInstallOk := true, cmakeOk := true }

/-- A command line with no overrides, interactive mode. -/
def argsNone : Args :=
  { type := none, compiler := none, buildSystem := none, platformArg := none,
    buildTests := none, useConan := none, clean := false,
    noInteractive := false, cmakeArgs := [] }

/-- Windows machine where INCLUDE is set but cl is not on PATH, a Visual
Studio root and its vcvarsall.bat exist, and the environment dump yields
one new variable. -/
def w1 : World :=
  { baseWorld with
    system := "Windows"
    environ := [("INCLUDE", "x"), ("FOO", "A")]
    existingPaths :=
      ["C:/Program Files/Microsoft Visual Studio/2022/Community",
       "C:/Program Files/Microsoft Visual Studio/2022/Community/VC/Auxiliary/Build/vcvarsall.bat"]
    vcvarsDump := ["BAR=2"] }

/-- Linux machine with both g++ and clang++ installed. -/
def wAuto : World := { baseWorld with gccAvail := true, clangPPAvail := true }

/-- Linux machine with g++ and ninja installed, conan absent. -/
def wC3 : World := { baseWorld with gccAvail := true, ninjaAvail := true }

/-- Linux machine with g++, ninja and make installed (two build-system
candidates). -/
def w2 : World :=
  { baseWorld with gccAvail := true, ninjaAvail := true, makeAvail := true }

/-- Windows machine where vswhere exists and reports an installation. -/
def wC4 : World :=
  { baseWorld with
    system := "Windows"
    existingPaths :=
      ["C:\\Program Files (x86)/Microsoft Visual Studio/Installer/vswhere.exe"]
    vswhereOut := some "C:/VS" }

/-- Linux machine with ninja but no compiler at all. -/
def wNC : World := { baseWorld with ninjaAvail := true }

/-- A fully overridden non-interactive command line naming gcc. -/
def aNC : Args :=
  { argsNone with
    type := some "Release", compiler := some "gcc",
    buildSystem := some "Ninja", buildTests := some false,
    useConan := some false, noInteractive := true }

/-- Windows machine where clang-cl is not on PATH but lives under an
existing Visual Studio root, and the probe succeeds after prepending. -/
def wCl : World :=
  { baseWorld with
    system := "Windows"
    existingPaths :=
      ["C:/Program Files/Microsoft Visual Studio/2022/Community",
       "C:/Program Files/Microsoft Visual Studio/2022/Community/VC/Tools/Llvm/x64/bin/clang-cl.exe"]
    whichAfterPrepend := true
    environ := [("PATH", "C:/orig")] }

/-- Windows machine with a fully configured MSVC shell: cl on PATH and
INCLUDE set. -/
def wWit : World :=
  { baseWorld with
    system := "Windows", clAvail := true, environ := [("INCLUDE", "inc")] }

/-- A resolved RelWithDebInfo configuration using Conan. -/
def cfgRel : BuildCfg :=
  { projectRoot := "/proj", buildType := "RelWithDebInfo",
    compiler := some "gcc", buildSystem := some "Ninja", platform := "linux",
    buildTests := false, useConan := true, clean := false,
    interactive := false, cmakeArgs := [] }

/-- A resolved Windows MSVC configuration. -/
def cfgMsvc : BuildCfg :=
  { cfgRel with
    compiler := some "msvc"
    useConan := false
    platform := "windows" }

/-- `cfgRel` with no generator resolved. -/
def cfgNoGen : BuildCfg := { cfgRel with buildSystem := none }

/-- A world whose filesystem holds exactly the Conan toolchain file of
`cfgRel`. -/
def wTc : World := { baseWorld with existingPaths := [toolchain_path cfgRel] }

/-- An input stream cancelling the first prompt, then choosing the first
menu entry, then accepting a default. -/
def inpC3 : List Inp := [Inp.cancel, Inp.text "1", Inp.text ""]

/-- A fully overridden interactive command line. -/
def aAll : Args :=
  { argsNone with
    type := some "Debug", compiler := some "gcc", buildSystem := some "Ninja",
    buildTests := some true, useConan := some false }

/-! ## Helper lemmas -/

theorem envGet_envSet_ne (e : Env) (k1 k2 v : String) (h : k1 ≠ k2) :
    envGet (envSet e k1 v) k2 = envGet e k2 := by
  induction e with
  | nil => simp [envSet, envGet, h]
  | cons p rest ih =>
    obtain ⟨k0, v0⟩ := p
    by_cases h0 : (k0 == k1) = true
    · have hk : k0 = k1 := by simpa using h0
      subst hk
      simp [envSet, envGet, h]
    · simp only [envSet, envGet, if_neg h0]
      by_cases h2 : (k0 == k2) = true
      · simp [envGet, h2]
      · simp [envGet, h2, ih]

theorem try_clang_dirs_frame (w : World) (ds : List String) (amb : Env)
    (k : String) (h : k ≠ "PATH") :
    envGet (try_clang_dirs w ds amb).2 k = envGet amb k := by
  induction ds generalizing amb with
  | nil => rfl
  | cons d rest ih =>
    simp only [try_clang_dirs]
    by_cases h1 : pathExists w (d ++ "/clang-cl.exe") = true
    · rw [if_pos h1]
      by_cases h2 : w.whichAfterPrepend = true
      · rw [if_pos h2]
        exact envGet_envSet_ne amb "PATH" k _ (fun he => h he.symm)
      · rw [if_neg h2, ih]
        exact envGet_envSet_ne amb "PATH" k _ (fun he => h he.symm)
    · rw [if_neg h1, ih]

theorem setup_clang_cl_path_frame (w : World) (amb : Env) (k : String)
    (h : k ≠ "PATH") :
    envGet (setup_clang_cl_path w amb).2 k = envGet amb k := by
  unfold setup_clang_cl_path
  split
  · rfl
  · split
    · rfl
    · exact try_clang_dirs_frame w _ amb k h

theorem mem_of_head?_eq {α : Type} (l : List α) (a : α)
    (h : l.head? = some a) : a ∈ l := by
  cases l with
  | nil => simp at h
  | cons x t =>
    have : x = a := by simpa using h
    subst this
    exact List.mem_cons_self x t

theorem mem_of_drop_head? {α : Type} (l : List α) (n : Nat) (a : α)
    (h : (l.drop n).head? = some a) : a ∈ l :=
  List.mem_of_mem_drop (mem_of_head?_eq _ _ h)

theorem menu_select_mem (items : List String) (inp : List Inp) (g : String)
    (r : List Inp) (h : menu_select items inp = (some g, r)) : g ∈ items := by
  induction inp with
  | nil => simp [menu_select] at h
  | cons x rest ih =>
    cases x with
    | cancel => simp [menu_select] at h
    | text s =>
      simp only [menu_select] at h
      split at h
      · exact mem_of_head?_eq _ _ (congrArg Prod.fst h)
      · split at h
        · split at h
          · exact mem_of_drop_head? _ _ _ (congrArg Prod.fst h)
          · exact ih h
        · exact ih h

theorem select_build_system_mem (w : World) (c : Option String)
    (inp : List Inp) (g : String)
    (h : (select_build_system_interactive w c inp).1 = some g) :
    g ∈ (build_system_candidates w c).map (fun p => p.1) := by
  unfold select_build_system_interactive at h
  by_cases he : (build_system_candidates w c).isEmpty = true
  · rw [if_pos he] at h; simp at h
  · rw [if_neg he] at h
    by_cases h1 : ((build_system_candidates w c).length == 1) = true
    · rw [if_pos h1] at h
      exact mem_of_head?_eq _ _ h
    · rw [if_neg h1] at h
      rcases hms : menu_select ((build_system_candidates w c).map (fun p => p.1)) inp
        with ⟨o, rr⟩
      rw [hms] at h
      simp only at h
      subst h
      exact menu_select_mem _ _ _ _ hms

theorem vs_in_candidates (w : World) (c : Option String)
    (h : "Visual Studio 17 2022"
        ∈ (build_system_candidates w c).map (fun p => p.1)) :
    c = some "msvc" ∨ c = some "cl" := by
  unfold build_system_candidates at h
  simp only [List.map_append, List.mem_append] at h
  rcases h with (h | h) | h
  · cases hg : w.ninjaAvail <;> simp [hg] at h
  · cases hg : (w.system != "Windows" && w.makeAvail) <;> simp [hg] at h
  · cases hg : (w.system == "Windows" && detect_msbuild w
        && (c == some "msvc" || c == some "cl")) <;> simp [hg] at h
    have := hg
    simp only [Bool.and_eq_true, Bool.or_eq_true, beq_iff_eq] at this
    exact this.2

/-! ## Claim C1 -/

/-- Claim C1 as stated is false at `w1`: the environment exhibits the
INCLUDE marker variable yet extraction is not skipped (cl is not on
PATH), and the produced mapping is not the parsed dump alone but a merge
over the base environment. -/
theorem c1_counterexample :
    envMem w1.environ "INCLUDE" = true
    ∧ setup_msvc_environment w1 ≠ w1.environ
    ∧ setup_msvc_environment w1 ≠ parse_env_dump [] w1.vcvarsDump := by decide

/-- Claim C1 (amended): on Windows, extraction is skipped and the current
environment reused exactly when cl is on PATH and the INCLUDE marker is
set; when that guard fails and extraction succeeds, the produced mapping
is the base environment overlaid with the parsed dump entries. -/
theorem c1_msvc_environment_contract (w : World)
    (hwin : w.system = "Windows") :
    (w.clAvail = true → envMem w.environ "INCLUDE" = true →
      setup_msvc_environment w = w.environ)
    ∧ ((w.clAvail && envMem w.environ "INCLUDE") = false →
        msvc_extraction_ok w = true →
        setup_msvc_environment w = parse_env_dump w.environ w.vcvarsDump) := by
  constructor
  · intro h1 h2
    simp [setup_msvc_environment, hwin, h1, h2]
  · intro hg hok
    have hok' := hok
    simp only [msvc_extraction_ok, Bool.and_eq_true] at hok'
    obtain ⟨⟨hv, hp⟩, hk⟩ := hok'
    have hv' : (msvc_vs_path w == "") = false := by
      cases hb : (msvc_vs_path w == "") <;> simp [hb, bne] at hv ⊢
    simp [setup_msvc_environment, hwin, hg, hv', hp, hk]

theorem c1_witness :
    wWit.system = "Windows" ∧ wWit.clAvail = true
    ∧ envMem wWit.environ "INCLUDE" = true
    ∧ setup_msvc_environment wWit = wWit.environ :=
  ⟨rfl, rfl, by decide,
   (c1_msvc_environment_contract wWit rfl).1 rfl (by decide)⟩

/-! ## Claim C2 -/

/-- Claim C2 as stated is false at `wAuto`: with both clang and gcc
available on Linux, auto-detection chooses gcc while the head of the
fixed priority order of the interactive menu is clang. -/
theorem c2_counterexample :
    auto_detect_compiler wAuto
      ≠ ((spec_priority_order (wAuto.system == "Windows")).filter
          (candidate_available wAuto)).head? := by decide

/-- Claim C2 (amended): the interactive menu enumerates compilers in the
fixed priority order (Windows: MSVC, Clang-CL, GCC; elsewhere: Clang,
GCC) restricted to the available ones, but non-interactive auto-detection
picks the first available compiler of the order GCC, Clang, MSVC
instead. -/
theorem c2_compiler_priority (w : World) :
    (compiler_candidates w).map (fun p => p.1)
      = (spec_priority_order (w.system == "Windows")).filter
          (candidate_available w)
    ∧ auto_detect_compiler w
      = ((code_auto_order (w.system == "Windows")).filter
          (candidate_available w)).head? := by
  cases hw : w.system == "Windows" <;>
    cases hm : detect_msvc w <;>
    cases hc : detect_clang w <;>
    cases hg : detect_gcc w <;>
      simp [compiler_candidates, spec_priority_order, code_auto_order,
        candidate_available, auto_detect_compiler, hw, hm, hc, hg, bne]

/-! ## Claim C4 -/

/-- Claim C4: the Visual-Studio-project generator is only ever listed in
the interactive menu, returned by the interactive selection, or chosen by
auto-selection when the active compiler is the MSVC-class compiler. -/
theorem c4_vs_generator_msvc_only (w : World) (c : Option String)
    (inp : List Inp) (cs : String) :
    ("Visual Studio 17 2022"
        ∈ (build_system_candidates w c).map (fun p => p.1) →
      c = some "msvc" ∨ c = some "cl")
    ∧ ((select_build_system_interactive w c inp).1
          = some "Visual Studio 17 2022" →
      c = some "msvc" ∨ c = some "cl")
    ∧ (auto_build_system w cs = "Visual Studio 17 2022" →
      cs = "msvc" ∨ cs = "cl") := by
  refine ⟨vs_in_candidates w c,
    fun h => vs_in_candidates w c (select_build_system_mem w c inp _ h), ?_⟩
  intro h
  unfold auto_build_system at h
  split at h
  · exact absurd h (by decide)
  · split at h
    · exact absurd h (by decide)
    · split at h
      · rename_i hcond
        simpa only [Bool.or_eq_true, beq_iff_eq] using hcond
      · exact absurd h (by decide)

theorem c4_witness :
    ("Visual Studio 17 2022"
        ∈ (build_system_candidates wC4 (some "msvc")).map (fun p => p.1))
    ∧ ((select_build_system_interactive wC4 (some "msvc") []).1
          = some "Visual Studio 17 2022")
    ∧ auto_build_system wC4 "msvc" = "Visual Studio 17 2022"
    ∧ (some "msvc" = some "msvc" ∨ (some "msvc" : Option String) = some "cl") :=
  ⟨by decide, by decide, by decide,
   (c4_vs_generator_msvc_only wC4 (some "msvc") [] "msvc").1 (by decide)⟩

/-! ## Claim C5 -/

/-- Claim C5: with requested build type RelWithDebInfo, the assembled
Conan install command requests Release dependency artifacts while the
assembled configure command still requests RelWithDebInfo. -/
theorem c5_relwithdebinfo_mapping (w : World) (cfg : BuildCfg)
    (h : cfg.buildType = "RelWithDebInfo") :
    "-s:h=build_type=Release" ∈ conan_install_cmd w cfg
    ∧ "-DCMAKE_BUILD_TYPE=RelWithDebInfo" ∈ cmake_configure_cmd w cfg := by
  constructor
  · have hb : conan_build_type cfg.buildType = "Release" := by rw [h]; decide
    unfold conan_install_cmd
    rw [hb]
    simp
  · unfold cmake_configure_cmd
    rw [h]
    simp

theorem c5_witness :
    cfgRel.buildType = "RelWithDebInfo"
    ∧ "-s:h=build_type=Release" ∈ conan_install_cmd baseWorld cfgRel
    ∧ "-DCMAKE_BUILD_TYPE=RelWithDebInfo" ∈ cmake_configure_cmd baseWorld cfgRel :=
  ⟨rfl, (c5_relwithdebinfo_mapping baseWorld cfgRel rfl).1,
   (c5_relwithdebinfo_mapping baseWorld cfgRel rfl).2⟩

/-! ## Claim C7 -/

/-- Claim C7: the assembled configure command contains the claimed
elements in the claimed order (generator flag, compiler overrides,
build-type define, test define, conditional toolchain define, trailing
arguments, source and build flags); the generator flag is absent when no
generator resolved; and within the Conan flags the toolchain define is
present exactly when the toolchain file exists on disk. -/
theorem c7_configure_command_order (w : World) (cfg : BuildCfg) :
    List.Sublist (spec_configure_blocks w cfg) (cmake_configure_cmd w cfg)
    ∧ (cfg.buildSystem = none → setup_build_system cfg.buildSystem = [])
    ∧ (cfg.useConan = true →
        ((("-DCMAKE_TOOLCHAIN_FILE=" ++ toolchain_path cfg)
            ∈ conan_flags w cfg)
          ↔ pathExists w (toolchain_path cfg) = true)) := by
  have htc : List.Sublist
      (if cfg.useConan && pathExists w (toolchain_path cfg) then
        ["-DCMAKE_TOOLCHAIN_FILE=" ++ toolchain_path cfg] else [])
      (conan_flags w cfg) := by
    unfold conan_flags find_conan_toolchain
    cases hu : cfg.useConan <;>
      cases hp : pathExists w (toolchain_path cfg) <;>
        simp [hu, hp]
  refine ⟨?_, fun h => by rw [h]; rfl, ?_⟩
  · have key : ∀ (A P Q S : List String), List.Sublist P Q →
        List.Sublist (A ++ (P ++ S)) ("cmake" :: (A ++ (Q ++ S))) :=
      fun A P Q S h =>
        List.Sublist.cons _
          ((List.Sublist.refl A).append (h.append (List.Sublist.refl S)))
    have e1 : spec_configure_blocks w cfg
        = (setup_build_system cfg.buildSystem
            ++ (setup_compiler_args cfg.compiler).map
                (fun kv => "-D" ++ kv.1 ++ "=" ++ kv.2)
            ++ ["-DCMAKE_BUILD_TYPE=" ++ cfg.buildType]
            ++ ["-DCLIENT_BUILD_TESTS="
                  ++ (if cfg.buildTests then "ON" else "OFF")])
          ++ ((if cfg.useConan && pathExists w (toolchain_path cfg) then
                ["-DCMAKE_TOOLCHAIN_FILE=" ++ toolchain_path cfg] else [])
            ++ (cfg.cmakeArgs
                ++ ["-S", cfg.projectRoot, "-B", get_build_dir cfg])) := by
      simp [spec_configure_blocks, List.append_assoc]
    have e2 : cmake_configure_cmd w cfg
        = "cmake" :: ((setup_build_system cfg.buildSystem
            ++ (setup_compiler_args cfg.compiler).map
                (fun kv => "-D" ++ kv.1 ++ "=" ++ kv.2)
            ++ ["-DCMAKE_BUILD_TYPE=" ++ cfg.buildType]
            ++ ["-DCLIENT_BUILD_TESTS="
                  ++ (if cfg.buildTests then "ON" else "OFF")])
          ++ (conan_flags w cfg
            ++ (cfg.cmakeArgs
                ++ ["-S", cfg.projectRoot, "-B", get_build_dir cfg]))) := by
      simp [cmake_configure_cmd, List.append_assoc]
    rw [e1, e2]
    exact key _ _ _ _ htc
  · intro hu
    unfold conan_flags find_conan_toolchain
    cases hp : pathExists w (toolchain_path cfg) <;> simp [hu, hp]

theorem c7_witness :
    List.Sublist (spec_configure_blocks wTc cfgNoGen) (cmake_configure_cmd wTc cfgNoGen)
    ∧ setup_build_system cfgNoGen.buildSystem = []
    ∧ ((("-DCMAKE_TOOLCHAIN_FILE=" ++ toolchain_path cfgNoGen)
          ∈ conan_flags wTc cfgNoGen)
        ↔ pathExists wTc (toolchain_path cfgNoGen) = true) :=
  ⟨(c7_configure_command_order wTc cfgNoGen).1,
   (c7_configure_command_order wTc cfgNoGen).2.1 rfl,
   (c7_configure_command_order wTc cfgNoGen).2.2 rfl⟩

/-! ## Claim C9 -/

/-- Claim C9 as stated is false at `wCl`: the clang-cl discovery scan
mutates the ambient process environment (its PATH) instead of producing
only a fresh snapshot. -/
theorem c9_counterexample :
    (setup_clang_cl_path wCl wCl.environ).2 ≠ wCl.environ := by decide

/-- Claim C9 (amended): MSVC extraction builds a fresh mapping and the
configure subprocess receives that snapshot, while clang-cl discovery
mutates the ambient environment, though only its PATH entry. -/
theorem c9_env_snapshot (w : World) (amb : Env) (k : String)
    (cfg : BuildCfg) (hk : k ≠ "PATH") :
    envGet (setup_clang_cl_path w amb).2 k = envGet amb k
    ∧ (w.system = "Windows" → cfg.compiler = some "msvc" →
        cmake_env w cfg = setup_msvc_environment w) := by
  refine ⟨setup_clang_cl_path_frame w amb k hk, ?_⟩
  intro h1 h2
  simp [cmake_env, h1, h2]

theorem c9_witness :
    ("FOO" ≠ "PATH")
    ∧ envGet (setup_clang_cl_path wCl wCl.environ).2 "FOO"
        = envGet wCl.environ "FOO"
    ∧ cmake_env wCl cfgMsvc = setup_msvc_environment wCl :=
  ⟨by decide,
   (c9_env_snapshot wCl wCl.environ "FOO" cfgMsvc (by decide)).1,
   (c9_env_snapshot wCl wCl.environ "FOO" cfgMsvc (by decide)).2 rfl rfl⟩

/-! ## Claim C10 -/

/-- Claim C10: the Conan output folder, the toolchain search location and
the configure build directory are all the same
project_root/build/lowercased-type/platform path, and the standalone
installer computes the same directory for the same inputs. -/
theorem c10_build_dir_agreement (w : World) (cfg : BuildCfg) (sys : String) :
    (∃ pre, cmake_configure_cmd w cfg
        = pre ++ ["-S", cfg.projectRoot, "-B", get_build_dir cfg])
    ∧ (conan_install_cmd w cfg)[3]? = some "--output-folder"
    ∧ (conan_install_cmd w cfg)[4]? = some (get_build_dir cfg)
    ∧ (∀ t, find_conan_toolchain w cfg = some t →
        t = get_build_dir cfg ++ "/conan_toolchain.cmake")
    ∧ get_build_dir cfg
        = cfg.projectRoot ++ "/build/" ++ strLower cfg.buildType ++ "/"
            ++ cfg.platform
    ∧ (cfg.platform = get_platform_name sys →
        deps_get_build_dir cfg.projectRoot sys cfg.buildType
          = get_build_dir cfg) := by
  refine ⟨⟨["cmake"] ++ setup_build_system cfg.buildSystem
      ++ (setup_compiler_args cfg.compiler).map
          (fun kv => "-D" ++ kv.1 ++ "=" ++ kv.2)
      ++ ["-DCMAKE_BUILD_TYPE=" ++ cfg.buildType]
      ++ ["-DCLIENT_BUILD_TESTS=" ++ (if cfg.buildTests then "ON" else "OFF")]
      ++ conan_flags w cfg ++ cfg.cmakeArgs, ?_⟩, rfl, rfl, ?_, rfl, ?_⟩
  · simp [cmake_configure_cmd, List.append_assoc]
  · intro t ht
    unfold find_conan_toolchain at ht
    split at ht
    · have : toolchain_path cfg = t := by simpa using ht
      rw [← this]
      rfl
    · simp at ht
  · intro hp
    unfold deps_get_build_dir get_build_dir
    rw [hp]

theorem c10_witness :
    find_conan_toolchain wTc cfgRel = some (toolchain_path cfgRel)
    ∧ toolchain_path cfgRel = get_build_dir cfgRel ++ "/conan_toolchain.cmake"
    ∧ cfgRel.platform = get_platform_name "Linux"
    ∧ deps_get_build_dir cfgRel.projectRoot "Linux" cfgRel.buildType
        = get_build_dir cfgRel :=
  ⟨by decide,
   (c10_build_dir_agreement wTc cfgRel "Linux").2.2.2.1 _ (by decide),
   rfl,
   (c10_build_dir_agreement wTc cfgRel "Linux").2.2.2.2.2 rfl⟩

/-! ## Stage lemmas for the resolution pipeline -/

theorem stage_build_type_evs (a : Args) (i : Bool) (inp : List Inp) :
    (stage_build_type a i inp).2.2 = []
    ∨ (stage_build_type a i inp).2.2 = [Ev.promptBuildType] := by
  unfold stage_build_type
  cases a.type with
  | some t => exact Or.inl rfl
  | none =>
    cases i with
    | false => exact Or.inl rfl
    | true => exact Or.inr rfl

theorem stage_compiler_evs (w : World) (a : Args) (i : Bool)
    (inp : List Inp) :
    (stage_compiler w a i inp).2.2 = []
    ∨ (stage_compiler w a i inp).2.2 = [Ev.promptCompiler] := by
  unfold stage_compiler
  cases a.compiler with
  | some c => exact Or.inl rfl
  | none =>
    cases i with
    | false => exact Or.inl rfl
    | true => exact Or.inr rfl

theorem stage_build_system_evs (w : World) (a : Args) (i : Bool)
    (c : String) (inp : List Inp) :
    (stage_build_system w a i c inp).2.2 = []
    ∨ (stage_build_system w a i c inp).2.2 = [Ev.promptBuildSystem] := by
  unfold stage_build_system
  cases a.buildSystem with
  | some b => exact Or.inl rfl
  | none =>
    cases i with
    | false => exact Or.inl rfl
    | true => exact Or.inr rfl

theorem stage_tests_evs (a : Args) (i : Bool) (inp : List Inp) :
    (stage_tests a i inp).2.2 = []
    ∨ (stage_tests a i inp).2.2 = [Ev.promptTests] := by
  unfold stage_tests
  cases a.buildTests with
  | some b => exact Or.inl rfl
  | none =>
    cases i with
    | false => exact Or.inl rfl
    | true => exact Or.inr rfl

theorem stage_conan_evs (w : World) (a : Args) (i : Bool) (inp : List Inp) :
    (stage_conan w a i inp).2.2 = []
    ∨ (stage_conan w a i inp).2.2 = [Ev.promptConan] := by
  unfold stage_conan
  cases a.useConan with
  | some b => exact Or.inl rfl
  | none =>
    cases i with
    | false => exact Or.inl rfl
    | true => exact Or.inr rfl

theorem stage_build_type_override (a : Args) (i : Bool) (inp : List Inp)
    (t : String) (h : a.type = some t) :
    stage_build_type a i inp = (t, inp, []) := by
  unfold stage_build_type
  rw [h]

theorem stage_compiler_override (w : World) (a : Args) (i : Bool)
    (inp : List Inp) (c : String) (h : a.compiler = some c) :
    stage_compiler w a i inp = (some c, inp, []) := by
  unfold stage_compiler
  rw [h]

theorem stage_build_system_override (w : World) (a : Args) (i : Bool)
    (c : String) (inp : List Inp) (b : String) (h : a.buildSystem = some b) :
    stage_build_system w a i c inp = (some b, inp, []) := by
  unfold stage_build_system
  rw [h]

theorem stage_tests_override (a : Args) (i : Bool) (inp : List Inp)
    (b : Bool) (h : a.buildTests = some b) :
    stage_tests a i inp = (b, inp, []) := by
  unfold stage_tests
  rw [h]

theorem stage_conan_override (w : World) (a : Args) (i : Bool)
    (inp : List Inp) (b : Bool) (h : a.useConan = some b) :
    stage_conan w a i inp = (b, inp, []) := by
  unfold stage_conan
  rw [h]

theorem finishRun_no_prompt (w : World) (cfg : BuildCfg) (e : Ev)
    (he : e ∈ (finishRun w cfg).2) : isPromptEv e = false := by
  simp only [finishRun] at he
  split at he
  · split at he
    · simp at he
    · split at he
      · simp at he
        subst he
        rfl
      · simp at he
        rcases he with he | he <;> subst he <;> rfl
  · simp at he
    subst he
    rfl

theorem prompt_not_mem_finish (w : World) (cfg : BuildCfg) (e : Ev)
    (hp : isPromptEv e = true) : e ∉ (finishRun w cfg).2 := fun he => by
  rw [finishRun_no_prompt w cfg e he] at hp
  exact Bool.false_ne_true hp

theorem not_mem_of_evs {e x : Ev} {l : List Ev}
    (h : l = [] ∨ l = [x]) (hne : e ≠ x) : e ∉ l := by
  rcases h with h | h <;> subst h <;> simp [hne]

theorem mainRun_not_mem (w : World) (a : Args) (inp : List Inp) (e : Ev)
    (hp : isPromptEv e = true)
    (h1 : e ∉ (stage_build_type a (!a.noInteractive) inp).2.2)
    (h2 : ∀ inp2, e ∉ (stage_compiler w a (!a.noInteractive) inp2).2.2)
    (h3 : ∀ c inp3, e ∉ (stage_build_system w a (!a.noInteractive) c inp3).2.2)
    (h4 : ∀ inp4, e ∉ (stage_tests a (!a.noInteractive) inp4).2.2)
    (h5 : ∀ inp5, e ∉ (stage_conan w a (!a.noInteractive) inp5).2.2) :
    e ∉ (mainRun w a inp).2 := by
  intro he
  simp only [mainRun] at he
  rcases hc : (stage_compiler w a (!a.noInteractive)
      (stage_build_type a (!a.noInteractive) inp).2.1).1 with _ | compiler <;>
    rw [hc] at he <;> simp only [List.mem_append] at he
  · rcases he with he | he
    · exact h1 he
    · exact h2 _ he
  · rcases he with ((((he | he) | he) | he) | he) | he
    · exact h1 he
    · exact h2 _ he
    · exact h3 _ _ he
    · exact h4 _ he
    · exact h5 _ he
    · exact prompt_not_mem_finish w _ e hp he

/-! ## Claim C8 -/

/-- Claim C8: whenever an explicit command-line override for a field is
supplied, the interactive prompt for that field never appears in the run,
regardless of interactive mode. -/
theorem c8_overrides_suppress_prompts (w : World) (a : Args)
    (inp : List Inp) :
    (a.type.isSome = true → Ev.promptBuildType ∉ (mainRun w a inp).2)
    ∧ (a.compiler.isSome = true → Ev.promptCompiler ∉ (mainRun w a inp).2)
    ∧ (a.buildSystem.isSome = true →
        Ev.promptBuildSystem ∉ (mainRun w a inp).2)
    ∧ (a.buildTests.isSome = true → Ev.promptTests ∉ (mainRun w a inp).2)
    ∧ (a.useConan.isSome = true → Ev.promptConan ∉ (mainRun w a inp).2) := by
  refine ⟨fun hov => ?_, fun hov => ?_, fun hov => ?_, fun hov => ?_,
    fun hov => ?_⟩
  · obtain ⟨t, ht⟩ := Option.isSome_iff_exists.mp hov
    refine mainRun_not_mem w a inp _ rfl ?_ ?_ ?_ ?_ ?_
    · rw [stage_build_type_override a _ inp t ht]
      simp
    · exact fun inp2 =>
        not_mem_of_evs (stage_compiler_evs w a _ inp2) (by decide)
    · exact fun c inp3 =>
        not_mem_of_evs (stage_build_system_evs w a _ c inp3) (by decide)
    · exact fun inp4 => not_mem_of_evs (stage_tests_evs a _ inp4) (by decide)
    · exact fun inp5 =>
        not_mem_of_evs (stage_conan_evs w a _ inp5) (by decide)
  · obtain ⟨c, hcmp⟩ := Option.isSome_iff_exists.mp hov
    refine mainRun_not_mem w a inp _ rfl ?_ ?_ ?_ ?_ ?_
    · exact not_mem_of_evs (stage_build_type_evs a _ inp) (by decide)
    · intro inp2
      rw [stage_compiler_override w a _ inp2 c hcmp]
      simp
    · exact fun c2 inp3 =>
        not_mem_of_evs (stage_build_system_evs w a _ c2 inp3) (by decide)
    · exact fun inp4 => not_mem_of_evs (stage_tests_evs a _ inp4) (by decide)
    · exact fun inp5 =>
        not_mem_of_evs (stage_conan_evs w a _ inp5) (by decide)
  · obtain ⟨b, hb⟩ := Option.isSome_iff_exists.mp hov
    refine mainRun_not_mem w a inp _ rfl ?_ ?_ ?_ ?_ ?_
    · exact not_mem_of_evs (stage_build_type_evs a _ inp) (by decide)
    · exact fun inp2 =>
        not_mem_of_evs (stage_compiler_evs w a _ inp2) (by decide)
    · intro c inp3
      rw [stage_build_system_override w a _ c inp3 b hb]
      simp
    · exact fun inp4 => not_mem_of_evs (stage_tests_evs a _ inp4) (by decide)
    · exact fun inp5 =>
        not_mem_of_evs (stage_conan_evs w a _ inp5) (by decide)
  · obtain ⟨b, hb⟩ := Option.isSome_iff_exists.mp hov
    refine mainRun_not_mem w a inp _ rfl ?_ ?_ ?_ ?_ ?_
    · exact not_mem_of_evs (stage_build_type_evs a _ inp) (by decide)
    · exact fun inp2 =>
        not_mem_of_evs (stage_compiler_evs w a _ inp2) (by decide)
    · exact fun c inp3 =>
        not_mem_of_evs (stage_build_system_evs w a _ c inp3) (by decide)
    · intro inp4
      rw [stage_tests_override a _ inp4 b hb]
      simp
    · exact fun inp5 =>
        not_mem_of_evs (stage_conan_evs w a _ inp5) (by decide)
  · obtain ⟨b, hb⟩ := Option.isSome_iff_exists.mp hov
    refine mainRun_not_mem w a inp _ rfl ?_ ?_ ?_ ?_ ?_
    · exact not_mem_of_evs (stage_build_type_evs a _ inp) (by decide)
    · exact fun inp2 =>
        not_mem_of_evs (stage_compiler_evs w a _ inp2) (by decide)
    · exact fun c inp3 =>
        not_mem_of_evs (stage_build_system_evs w a _ c inp3) (by decide)
    · exact fun inp4 => not_mem_of_evs (stage_tests_evs a _ inp4) (by decide)
    · intro inp5
      rw [stage_conan_override w a _ inp5 b hb]
      simp

theorem c8_witness :
    aAll.type.isSome = true ∧ aAll.compiler.isSome = true
    ∧ aAll.buildSystem.isSome = true ∧ aAll.buildTests.isSome = true
    ∧ aAll.useConan.isSome = true
    ∧ Ev.promptBuildType ∉ (mainRun wC3 aAll []).2
    ∧ Ev.promptCompiler ∉ (mainRun wC3 aAll []).2
    ∧ Ev.promptBuildSystem ∉ (mainRun wC3 aAll []).2
    ∧ Ev.promptTests ∉ (mainRun wC3 aAll []).2
    ∧ Ev.promptConan ∉ (mainRun wC3 aAll []).2 :=
  ⟨rfl, rfl, rfl, rfl, rfl,
   (c8_overrides_suppress_prompts wC3 aAll []).1 rfl,
   (c8_overrides_suppress_prompts wC3 aAll []).2.1 rfl,
   (c8_overrides_suppress_prompts wC3 aAll []).2.2.1 rfl,
   (c8_overrides_suppress_prompts wC3 aAll []).2.2.2.1 rfl,
   (c8_overrides_suppress_prompts wC3 aAll []).2.2.2.2 rfl⟩

/-! ## Claim C6 -/

/-- Claim C6 as stated is false at `wNC`/`aNC`: with no compiler available
on any detection path but an explicit compiler override supplied, the run
does not fail with a missing-tool error and the configure command is
invoked anyway. -/
theorem c6_counterexample :
    detect_gcc wNC = false ∧ detect_clang wNC = false
    ∧ detect_msvc wNC = false
    ∧ (mainRun wNC aNC []).1 = 0
    ∧ (mainRun wNC aNC []).2.any isConfigureEv = true := by decide

/-- Claim C6 (amended): in every run without an explicit compiler
override in which no compiler is detectable on any path, resolution fails
with exit code 1 and neither the dependency-manager command nor the
configure command is ever invoked (only prompts may have occurred). -/
theorem c6_no_compiler_fails (w : World) (a : Args) (inp : List Inp)
    (hc : a.compiler = none) (hg : detect_gcc w = false)
    (hcl : detect_clang w = false) (hm : detect_msvc w = false) :
    (mainRun w a inp).1 = 1
    ∧ ∀ e ∈ (mainRun w a inp).2, isPromptEv e = true := by
  have hcand : compiler_candidates w = [] := by
    simp [compiler_candidates, hg, hcl, hm]
  have hsel : ∀ inp2, (stage_compiler w a (!a.noInteractive) inp2).1 = none := by
    intro inp2
    unfold stage_compiler
    rw [hc]
    cases hi : (!a.noInteractive)
    · simp [auto_detect_compiler, hg, hcl, hm]
    · simp [select_compiler_interactive, hcand]
  have hmain : mainRun w a inp
      = (1, (stage_build_type a (!a.noInteractive) inp).2.2
          ++ (stage_compiler w a (!a.noInteractive)
              (stage_build_type a (!a.noInteractive) inp).2.1).2.2) := by
    simp only [mainRun, hsel]
  rw [hmain]
  refine ⟨rfl, ?_⟩
  intro e he
  simp only [List.mem_append] at he
  rcases he with he | he
  · rcases stage_build_type_evs a (!a.noInteractive) inp with h | h
    · rw [h] at he
      simp at he
    · rw [h] at he
      simp at he
      subst he
      rfl
  · rcases stage_compiler_evs w a (!a.noInteractive)
        (stage_build_type a (!a.noInteractive) inp).2.1 with h | h
    · rw [h] at he
      simp at he
    · rw [h] at he
      simp at he
      subst he
      rfl

theorem c6_witness :
    argsNone.compiler = none ∧ detect_gcc baseWorld = false
    ∧ detect_clang baseWorld = false ∧ detect_msvc baseWorld = false
    ∧ (mainRun baseWorld argsNone []).1 = 1
    ∧ ∀ e ∈ (mainRun baseWorld argsNone []).2, isPromptEv e = true :=
  ⟨rfl, rfl, by decide, by decide,
   (c6_no_compiler_fails baseWorld argsNone [] rfl rfl (by decide)
      (by decide)).1,
   (c6_no_compiler_fails baseWorld argsNone [] rfl rfl (by decide)
      (by decide)).2⟩

/-! ## Claim C3 -/

/-- Claim C3 as stated is false at `wC3`: cancelling the build-type
prompt does not terminate resolution; the run continues with the Release
default and exits with code 0. -/
theorem c3_counterexample :
    (mainRun wC3 argsNone inpC3).1 = 0
    ∧ Ev.promptBuildType ∈ (mainRun wC3 argsNone inpC3).2 := by decide

/-- Claim C3 (amended): cancelling the build-type prompt yields the
Release default, cancelling a yes/no prompt yields no, and cancelling the
build-system menu yields no generator, with resolution continuing in each
case; only cancelling the compiler prompt makes the whole resolution stop
immediately with exit code 1 and the events so far. -/
theorem c3_prompt_cancellation (w : World) (a : Args) (inp rest : List Inp)
    (c : Option String) (d : Bool) :
    select_build_type_interactive (Inp.cancel :: rest) = ("Release", rest)
    ∧ ask_yes_no d (Inp.cancel :: rest) = (false, rest)
    ∧ (2 ≤ (build_system_candidates w c).length →
        select_build_system_interactive w c (Inp.cancel :: rest)
          = (none, rest))
    ∧ (compiler_candidates w ≠ [] →
        select_compiler_interactive w (Inp.cancel :: rest) = (none, rest))
    ∧ (a.compiler = none → a.noInteractive = false →
        (stage_compiler w a true
            ((stage_build_type a true inp).2.1)).1 = none →
        mainRun w a inp
          = (1, (stage_build_type a true inp).2.2
              ++ (stage_compiler w a true
                  ((stage_build_type a true inp).2.1)).2.2)) := by
  refine ⟨rfl, rfl, ?_, ?_, ?_⟩
  · intro h
    unfold select_build_system_interactive
    have h0 : (build_system_candidates w c).isEmpty = false := by
      cases hl : build_system_candidates w c
      · rw [hl] at h
        simp at h
      · simp
    have h1 : ((build_system_candidates w c).length == 1) = false := by
      have hne : (build_system_candidates w c).length ≠ 1 := by omega
      simpa using hne
    simp [h0, h1, menu_select]
  · intro h
    unfold select_compiler_interactive
    have h0 : (compiler_candidates w).isEmpty = false := by
      cases hl : compiler_candidates w
      · exact absurd hl h
      · simp
    simp [h0, menu_select]
  · intro h1 h2 h3
    simp only [mainRun, h2, Bool.not_false, h3]

theorem c3_witness :
    (2 ≤ (build_system_candidates w2 none).length)
    ∧ select_build_system_interactive w2 none [Inp.cancel] = (none, [])
    ∧ compiler_candidates w2 ≠ []
    ∧ select_compiler_interactive w2 [Inp.cancel] = (none, [])
    ∧ argsNone.compiler = none ∧ argsNone.noInteractive = false
    ∧ (stage_compiler w2 argsNone true
        ((stage_build_type argsNone true [Inp.cancel, Inp.cancel]).2.1)).1
        = none
    ∧ mainRun w2 argsNone [Inp.cancel, Inp.cancel]
        = (1, (stage_build_type argsNone true [Inp.cancel, Inp.cancel]).2.2
            ++ (stage_compiler w2 argsNone true
                ((stage_build_type argsNone true
                    [Inp.cancel, Inp.cancel]).2.1)).2.2) := by
  have h := c3_prompt_cancellation w2 argsNone [Inp.cancel, Inp.cancel] []
    none true
  exact ⟨by decide, h.2.2.1 (by decide), by decide, h.2.2.2.1 (by decide),
    rfl, rfl, by decide, h.2.2.2.2 rfl rfl (by decide)⟩

end Spec2Proof
